import Mathlib

/-!
Verification of the dispatch-and-scheduling engine of the
`cloudflare-agents-openai-wrapper` repository.

The repository's own sources are `src/tools.ts` (the eleven tool
definitions, the `tools` export and the `executions` export) and
`worker.js` (the calculator worker).  The confirmation gate (`dispatch`),
the argument validator and the scheduler (`agent.schedule`) live in
external packages; where a property depends on them they are modelled
from the specification, and each such definition says so in its doc
comment.
-/

namespace AgentsWrapper

/-! ### Tool registry (from `src/tools.ts`) -/

/-- The eleven tool names of the `tools` export (src/tools.ts lines 1069-1081). -/
inductive ToolName where
  | getWeatherInformation
  | getLocalTime
  | scheduleTask
  | sendWebhook
  | searchDocs
  | generateImage
  | searchCountry
  | searchPokemon
  | callDoWorker
  | callgraphqlWorker
  | addCloudflareCustomRule
  deriving DecidableEq, Repr

/-- Whether the tool literal in `src/tools.ts` carries an `execute`
function (an auto-executor).  Every one of the eleven tools does. -/
def hasExecute : ToolName → Bool
  | .getWeatherInformation => true
  | .getLocalTime => true
  | .scheduleTask => true
  | .sendWebhook => true
  | .searchDocs => true
  | .generateImage => true
  | .searchCountry => true
  | .searchPokemon => true
  | .callDoWorker => true
  | .callgraphqlWorker => true
  | .addCloudflareCustomRule => true

/-- The keys of the `executions` export (src/tools.ts lines 1088-1090):
the map of confirmation-required handlers is empty. -/
def executions : List String := []

/-! ### Executor outcomes and the confirmation gate -/

/-- The outcome of running one tool executor: either it returns a value
(rendered here as the text eventually shown) or it throws. -/
inductive ExecOutcome where
  | returned (text : String)
  | thrown (msg : String)
  deriving DecidableEq, Repr

/-- The result the dispatch path hands back to the caller. -/
inductive DispatchResult where
  | executed (text : String)
  | errorResult (text : String)
  | pending
  deriving DecidableEq, Repr

/-- Modelled from the spec: step 3 of the Confirmation Gate's `dispatch`
(section 4.2) — "the executor's failure is caught and returned as a
structured error content item, never left to propagate and crash the
dispatch path".  The gate itself is in the external `ai`/`agents`
packages, not under `src/`. -/
def gateDispatch : ExecOutcome → DispatchResult
  | .returned t => .executed t
  | .thrown m => .errorResult ("ExecutionError: " ++ m)

/-- One dispatch: the returned result, whether a `PendingConfirmation`
was created, and whether the tool's executor was run. -/
structure DispatchRun where
  result : DispatchResult
  pendingCreated : Bool
  executorRan : Bool
  deriving DecidableEq, Repr

/-- Modelled from the spec: the Confirmation Gate's `dispatch`
(section 4.2) — validate the arguments, then either run the
auto-executor (no pending state created) or park the call as a
`PendingConfirmation`.  The gate is not under `src/`; the registry data
(`hasExecute`) is from `src/tools.ts`. -/
def dispatchTool (t : ToolName) (argsValid : Bool) (exec : ExecOutcome) : DispatchRun :=
  if argsValid = false then
    ⟨.errorResult "ValidationError", false, false⟩
  else if hasExecute t then
    ⟨gateDispatch exec, false, true⟩
  else
    ⟨.pending, true, false⟩

/-! ### Schedule specifications (shape of `unstable_scheduleSchema`) -/

/-- The `when` union of a schedule submission: an absolute instant
(epoch seconds), a relative delay in seconds, a cron expression, or the
explicit `no-schedule` variant. -/
inductive ScheduleWhen where
  | scheduled (date : Nat)
  | delayed (delayInSeconds : Int)
  | cron (expr : String)
  | noSchedule
  deriving DecidableEq, Repr

/-- The `when.type` discriminator string. -/
def whenTypeStr : ScheduleWhen → String
  | .scheduled _ => "scheduled"
  | .delayed _ => "delayed"
  | .cron _ => "cron"
  | .noSchedule => "no-schedule"

/-- The `input` value of `scheduleTask` rendered into its confirmation
message (src/tools.ts line 412). -/
def scheduleInputStr : ScheduleWhen → String
  | .scheduled d => toString d
  | .delayed d => toString d
  | .cron c => c
  | .noSchedule => ""

/-! ### Civil calendar arithmetic for the cron model -/

/-- Gregorian date (year, month, day) of a day count since 1970-01-01. -/
def civilFromDays (z : Nat) : Nat × Nat × Nat :=
  let z := z + 719468
  let era := z / 146097
  let doe := z % 146097
  let yoe := (doe - doe / 1460 + doe / 36524 - doe / 146097) / 365
  let y := yoe + era * 400
  let doy := doe - (365 * yoe + yoe / 4 - yoe / 100)
  let mp := (5 * doy + 2) / 153
  let d := doy - (153 * mp + 2) / 5 + 1
  let m := if mp < 10 then mp + 3 else mp - 9
  (if m ≤ 2 then y + 1 else y, m, d)

/-- Day count since 1970-01-01 of a Gregorian date. -/
def daysFromCivil (y m d : Nat) : Nat :=
  let y := if m ≤ 2 then y - 1 else y
  let era := y / 400
  let yoe := y % 400
  let mp := if 2 < m then m - 3 else m + 9
  let doy := (153 * mp + 2) / 5 + d - 1
  let doe := yoe * 365 + yoe / 4 - yoe / 100 + doy
  era * 146097 + doe - 719468

/-- Epoch seconds of a UTC instant given by date, hour and minute. -/
def epochOf (y mo d h mi : Nat) : Nat :=
  daysFromCivil y mo d * 86400 + h * 3600 + mi * 60

/-! ### Cron model

Modelled from the spec: the Scheduler "parses the expression; rejects
malformed expressions with `InvalidScheduleError`; computes the first
occurrence strictly after now" (section 4.3).  The cron engine lives in
the external `agents` package, not under `src/`. -/

/-- One field of a five-field cron expression: `*` or a single value. -/
inductive CronField where
  | any
  | exact (n : Nat)
  deriving DecidableEq, Repr

/-- A parsed cron expression: minute, hour, day-of-month, month,
day-of-week. -/
structure Cron where
  minute : CronField
  hour : CronField
  dom : CronField
  month : CronField
  dow : CronField
  deriving DecidableEq, Repr

/-- Split a character list into the space-separated tokens. -/
def splitOnSpace : List Char → List (List Char)
  | [] => [[]]
  | c :: rest =>
    let r := splitOnSpace rest
    if c = ' ' then [] :: r
    else
      match r with
      | [] => [[c]]
      | t :: ts => (c :: t) :: ts

/-- The value of a decimal digit character, if it is one. -/
def digitVal (c : Char) : Option Nat :=
  if '0' ≤ c ∧ c ≤ '9' then some (c.toNat - 48) else none

/-- Accumulate the decimal value of a digit string. -/
def parseNatAux : List Char → Nat → Option Nat
  | [], acc => some acc
  | c :: rest, acc =>
    match digitVal c with
    | some d => parseNatAux rest (acc * 10 + d)
    | none => none

/-- The decimal value of a non-empty all-digit character list. -/
def parseNatChars : List Char → Option Nat
  | [] => none
  | l => parseNatAux l 0

/-- Modelled from the spec: parse one cron field, either `*` or a
decimal value within the field's range. -/
def parseField (lo hi : Nat) (s : List Char) : Option CronField :=
  if s = ['*'] then some .any
  else
    match parseNatChars s with
    | some n => if lo ≤ n ∧ n ≤ hi then some (.exact n) else none
    | none => none

/-- Modelled from the spec: parse a five-field cron expression
(minute 0-59, hour 0-23, day-of-month 1-31, month 1-12,
day-of-week 0-6 with Sunday = 0); anything else is malformed. -/
def parseCron (s : String) : Option Cron :=
  match splitOnSpace s.data with
  | [mi, h, d, mo, w] => do
    let mi ← parseField 0 59 mi
    let h ← parseField 0 23 h
    let d ← parseField 1 31 d
    let mo ← parseField 1 12 mo
    let w ← parseField 0 6 w
    pure ⟨mi, h, d, mo, w⟩
  | _ => none

/-- Does a field admit the given value? -/
def fieldMatches : CronField → Nat → Bool
  | .any, _ => true
  | .exact n, v => v == n

/-- Does the cron expression match the UTC instant at minute count `m`
(minutes since the epoch)?  All five fields must match; day-of-week
counts Sunday as 0 (1970-01-01 was a Thursday, hence the offset 4). -/
def cronMatches (c : Cron) (m : Nat) : Bool :=
  let days := m / 1440
  let date := civilFromDays days
  fieldMatches c.minute (m % 60) &&
  fieldMatches c.hour (m / 60 % 24) &&
  fieldMatches c.dom date.2.2 &&
  fieldMatches c.month date.2.1 &&
  fieldMatches c.dow ((days + 4) % 7)

/-- Linear search for the first matching minute, bounded by fuel. -/
def cronSearch (c : Cron) : Nat → Nat → Option Nat
  | 0, _ => none
  | fuel + 1, m => if cronMatches c m then some m else cronSearch c fuel (m + 1)

/-- Modelled from the spec: the first occurrence of the cron expression
strictly after `now` (epoch seconds), searched at minute granularity
over a two-year horizon. -/
def cronNext (c : Cron) (now : Nat) : Option Nat :=
  (cronSearch c 1051200 (now / 60 + 1)).map (· * 60)

/-! ### The Scheduler's `submit` -/

instance {ε α : Type} [DecidableEq ε] [DecidableEq α] : DecidableEq (Except ε α) := fun a b =>
  match a, b with
  | .error e, .error f =>
    if h : e = f then .isTrue (by rw [h]) else .isFalse (fun c => by cases c; exact h rfl)
  | .error _, .ok _ => .isFalse (fun c => by cases c)
  | .ok _, .error _ => .isFalse (fun c => by cases c)
  | .ok x, .ok y =>
    if h : x = y then .isTrue (by rw [h]) else .isFalse (fun c => by cases c; exact h rfl)

/-- A persisted scheduled task. -/
structure ScheduledTask where
  id : String
  typ : String
  payload : String
  nextFire : Nat
  cronExpr : Option String
  deriving DecidableEq, Repr

/-- Modelled from the spec: the Scheduler's `submit` (section 4.3) —
rejects `no-schedule`, past instants, non-positive delays and malformed
cron expressions with `InvalidScheduleError`; otherwise computes the
next-fire instant, persists a new `ScheduledTask` under the fresh
identifier `newId` and succeeds.  The scheduler (`agent.schedule` of the
`agents` package) is not under `src/`. -/
def submit (now : Nat) (newId : String) (when : ScheduleWhen) (payload : String) :
    Except String ScheduledTask :=
  match when with
  | .noSchedule => .error "InvalidScheduleError"
  | .scheduled t =>
    if t < now then .error "InvalidScheduleError"
    else .ok ⟨newId, "scheduled", payload, t, none⟩
  | .delayed d =>
    if d ≤ 0 then .error "InvalidScheduleError"
    else .ok ⟨newId, "delayed", payload, now + d.toNat, none⟩
  | .cron s =>
    match parseCron s with
    | none => .error "InvalidScheduleError"
    | some c =>
      match cronNext c now with
      | none => .error "InvalidScheduleError"
      | some t => .ok ⟨newId, "cron", payload, t, some s⟩

/-! ### The `scheduleTask` tool body (src/tools.ts lines 383-414) -/

/-- The trace of one `scheduleTask` run: the executor's outcome, whether
`agent.schedule` was invoked, and the task it created, if any. -/
structure ScheduleRun where
  outcome : ExecOutcome
  schedulerCalled : Bool
  created : Option ScheduledTask
  deriving DecidableEq, Repr

/-- The `scheduleTask` executor, from `src/tools.ts` lines 386-413:
throws `"No agent found"` outside an agent-context binding; returns
`"Not a valid schedule input"` for `no-schedule` without touching the
scheduler; otherwise calls `agent.schedule` (modelled by `submit`),
catching its failure into an `"Error scheduling task: ..."` text, and on
success returns the confirmation message of line 412. -/
def runScheduleTask (ctx : Option Unit) (now : Nat) (newId : String)
    (when : ScheduleWhen) (payload : String) : ScheduleRun :=
  match ctx with
  | none => ⟨.thrown "No agent found", false, none⟩
  | some _ =>
    match when with
    | .noSchedule => ⟨.returned "Not a valid schedule input", false, none⟩
    | w =>
      match submit now newId w payload with
      | .error e => ⟨.returned ("Error scheduling task: " ++ e), true, none⟩
      | .ok task =>
        ⟨.returned ("Task scheduled for type \"" ++ whenTypeStr w ++ "\" : " ++
            scheduleInputStr w), true, some task⟩

/-! ### The other tool executors that read the agent context

Each executor is embedded as a function of the context binding and of an
oracle describing the external call it makes; the second component of
the result records whether any external call was made. -/

/-- The outcome of one external call: the callee threw (network error)
or returned a value. -/
inductive CallResult (α : Type) where
  | failure (msg : String)
  | success (val : α)
  deriving DecidableEq, Repr

/-- The `sendWebhook` executor (src/tools.ts lines 29-77): posts the
message, throws on a non-ok response, and catches every failure into a
`"Failed to send message to the webhook. ..."` text.  The oracle gives
the fetch outcome as (ok, status, body). -/
def runSendWebhook (f : CallResult (Bool × Nat × String)) : ExecOutcome :=
  match f with
  | .failure m => .returned ("Failed to send message to the webhook. Error: " ++ m)
  | .success (ok, status, body) =>
    if ok then .returned "Message successfully sent to the webhook."
    else
      .returned ("Failed to send message to the webhook. Error: Error: HTTP error! status: " ++
        toString status ++ ", body: " ++ body)

/-- The `searchDocs` executor (src/tools.ts lines 327-378): throws
`"No agent found"` outside a context binding — inside its `try`, so the
failure is caught into text; the oracle gives the AutoRAG call's
outcome, `success none` standing for a response without a `response`
field. -/
def runSearchDocs (ctx : Option Unit) (ai : CallResult (Option String)) :
    ExecOutcome × Bool :=
  match ctx with
  | none => (.returned "Failed to search Cloudflare documentation. Error: Error: No agent found", false)
  | some _ =>
    match ai with
    | .failure m => (.returned ("Failed to search Cloudflare documentation. Error: " ++ m), true)
    | .success none =>
      (.returned "Failed to search Cloudflare documentation. Error: Error: No response from AutoRAG", true)
    | .success (some r) => (.returned r, true)

/-- The `generateImage` executor (src/tools.ts lines 419-530): checks
the context binding inside its `try`, calls Workers AI (oracle `ai`,
`success none` standing for a response without an image), saves to R2
(oracle `r2`) and returns the public URL built from the generated
`filename`. -/
def runGenerateImage (ctx : Option Unit) (prompt : String)
    (ai : CallResult (Option String)) (r2 : CallResult Unit) (filename : String) :
    ExecOutcome × Bool :=
  match ctx with
  | none => (.returned "Failed to generate image. Error: Error: No agent found", false)
  | some _ =>
    match ai with
    | .failure m => (.returned ("Failed to generate image. Error: " ++ m), true)
    | .success none => (.returned "Failed to generate image. Error: Error: No image generated in response", true)
    | .success (some _) =>
      match r2 with
      | .failure m => (.returned ("Failed to generate image. Error: " ++ m), true)
      | .success _ =>
        (.returned ("I have generated an image of a \"" ++ prompt ++
          "\". View it at: https://r2.zxc.co.in/ai-generated/" ++ filename), true)

/-- The `callDoWorker` executor (src/tools.ts lines 780-843): checks
the context binding inside its `try`, then forwards the request through
the `doWorker` binding; the oracle gives the response's status and
text. -/
def runCallDoWorker (ctx : Option Unit) (f : CallResult (Nat × String)) :
    ExecOutcome × Bool :=
  match ctx with
  | none => (.returned "Failed to call worker. Error: Error: No agent found", false)
  | some _ =>
    match f with
    | .failure m => (.returned ("Failed to call worker. Error: " ++ m), true)
    | .success (status, text) =>
      (.returned ("Worker response (" ++ toString status ++ "): " ++ text), true)

/-- The `callgraphqlWorker` executor (src/tools.ts lines 848-908):
checks the context binding inside its `try`, then posts the query
through the `graphqlWorker` binding; the oracle gives the rendered JSON
response. -/
def runCallgraphqlWorker (ctx : Option Unit) (f : CallResult String) :
    ExecOutcome × Bool :=
  match ctx with
  | none => (.returned "Failed to call GraphQL worker. Error: Error: No agent found", false)
  | some _ =>
    match f with
    | .failure m => (.returned ("Failed to call GraphQL worker. Error: " ++ m), true)
    | .success json => (.returned ("GraphQL Worker response: " ++ json), true)

/-! ### Tool invocations and the full dispatch path -/

/-- One invocation of an embedded tool executor, with its inputs and
the oracles for its external calls. -/
inductive ToolInvocation where
  | sendWebhookInv (f : CallResult (Bool × Nat × String))
  | scheduleTaskInv (ctx : Option Unit) (now : Nat) (newId : String)
      (when : ScheduleWhen) (payload : String)
  | searchDocsInv (ctx : Option Unit) (ai : CallResult (Option String))
  | generateImageInv (ctx : Option Unit) (prompt : String)
      (ai : CallResult (Option String)) (r2 : CallResult Unit) (filename : String)
  | callDoWorkerInv (ctx : Option Unit) (f : CallResult (Nat × String))
  | callgraphqlWorkerInv (ctx : Option Unit) (f : CallResult String)

/-- Run the invoked executor. -/
def runInvocation : ToolInvocation → ExecOutcome
  | .sendWebhookInv f => runSendWebhook f
  | .scheduleTaskInv ctx now newId w payload => (runScheduleTask ctx now newId w payload).outcome
  | .searchDocsInv ctx ai => (runSearchDocs ctx ai).1
  | .generateImageInv ctx prompt ai r2 fn => (runGenerateImage ctx prompt ai r2 fn).1
  | .callDoWorkerInv ctx f => (runCallDoWorker ctx f).1
  | .callgraphqlWorkerInv ctx f => (runCallgraphqlWorker ctx f).1

/-- Is this an invocation of `scheduleTask` (the one executor whose
context check sits outside its `try`)? -/
def isScheduleInv : ToolInvocation → Bool
  | .scheduleTaskInv _ _ _ _ _ => true
  | _ => false

/-! ### JavaScript string model for the expression wrapping of
`addCloudflareCustomRule` (src/tools.ts lines 1027-1034) -/

/-- A JavaScript string as its character list. -/
abbrev JsStr := List Char

/-- The characters `String.prototype.trim` removes: JavaScript
whitespace and line terminators. -/
def isJsSpace (c : Char) : Bool :=
  c == ' ' || c == '\t' || c == '\n' || c == '\x0b' || c == '\x0c' ||
  c == '\r' || c == '\u00A0' || c == '\u2028' || c == '\u2029' || c == '\uFEFF'

/-- `String.prototype.trim`: drop leading and trailing whitespace. -/
def jsTrim (s : JsStr) : JsStr :=
  ((s.dropWhile isJsSpace).reverse.dropWhile isJsSpace).reverse

/-- `String.prototype.startsWith` for a single-character argument. -/
def jsStartsWith (s : JsStr) (c : Char) : Bool :=
  match s with
  | [] => false
  | a :: _ => a == c

/-- `String.prototype.endsWith` for a single-character argument. -/
def jsEndsWith (s : JsStr) (c : Char) : Bool :=
  jsStartsWith s.reverse c

/-- The guard of the wrapping step: the trimmed expression already both
starts with `(` and ends with `)`. -/
def wrapCond (e : JsStr) : Bool :=
  jsStartsWith (jsTrim e) '(' && jsEndsWith (jsTrim e) ')'

/-- The expression wrapping of `addCloudflareCustomRule`
(src/tools.ts lines 1029-1034): if the trimmed expression is not
already parenthesized, replace the expression by the trimmed one in
parentheses; otherwise leave the expression as it was. -/
def wrapExpression (e : JsStr) : JsStr :=
  let t := jsTrim e
  if jsStartsWith t '(' && jsEndsWith t ')' then e else '(' :: (t ++ [')'])

/-! ### The `generateImage` input schema (src/tools.ts lines 422-437) -/

/-- The zod schema of `generateImage`: `prompt` a string of length
1 to 2048, `steps` an optional number between 1 and 8 (defaulting when
absent).  Numbers are modelled as rationals. -/
def generateImageArgsValid (prompt : String) (steps : Option ℚ) : Bool :=
  (1 ≤ prompt.length && prompt.length ≤ 2048) &&
    match steps with
    | none => true
    | some s => decide (1 ≤ s) && decide (s ≤ 8)

/-! ### The calculator worker (`worker.js`) -/

/-- An HTTP response: status and body. -/
structure HttpResponse where
  status : Nat
  body : String
  deriving DecidableEq, Repr

/-- One run of the worker's `fetch`: the response and whether the
division `a / b` was evaluated. -/
structure CalcRun where
  resp : HttpResponse
  divisionPerformed : Bool
  deriving DecidableEq, Repr

/-- The success body `JSON.stringify(\x7b result \x7d)`. -/
def jsonResult (q : ℚ) : String :=
  "\x7b\"result\":" ++ toString q ++ "\x7d"

/-- The worker's `fetch` (worker.js): 404 off `/calc`; 400 when either
parameter fails to parse (`none` stands for `NaN`); then the `op`
switch, where `div` returns 400 `"Cannot divide by zero"` when `b` is
zero and performs the division only otherwise.  Numbers are modelled as
rationals. -/
def calcFetch (pathname : String) (op : Option String) (a b : Option ℚ) : CalcRun :=
  if pathname ≠ "/calc" then ⟨⟨404, "Not Found"⟩, false⟩
  else
    match a, b with
    | none, _ => ⟨⟨400, "Invalid numbers"⟩, false⟩
    | _, none => ⟨⟨400, "Invalid numbers"⟩, false⟩
    | some a, some b =>
      match op with
      | some "add" => ⟨⟨200, jsonResult (a + b)⟩, false⟩
      | some "sub" => ⟨⟨200, jsonResult (a - b)⟩, false⟩
      | some "mul" => ⟨⟨200, jsonResult (a * b)⟩, false⟩
      | some "div" =>
        if b = 0 then ⟨⟨400, "Cannot divide by zero"⟩, false⟩
        else ⟨⟨200, jsonResult (a / b)⟩, true⟩
      | _ => ⟨⟨400, "Invalid operation"⟩, false⟩

/-! ### Helper lemmas -/

theorem jsTrim_paren (l : JsStr) : jsTrim ('(' :: (l ++ [')'])) = '(' :: (l ++ [')']) := by
  have h1 : isJsSpace '(' = false := by decide
  have h2 : isJsSpace ')' = false := by decide
  simp [jsTrim, List.dropWhile_cons, h1, h2]

theorem jsEndsWith_paren (l : JsStr) : jsEndsWith ('(' :: (l ++ [')'])) ')' = true := by
  simp [jsEndsWith, jsStartsWith]

theorem cronSearch_min (c : Cron) : ∀ (fuel m k : Nat), cronSearch c fuel m = some k →
    ∀ j, m ≤ j → j < k → cronMatches c j = false := by
  intro fuel
  induction fuel with
  | zero => intro m k h; simp [cronSearch] at h
  | succ n ih =>
    intro m k h j hmj hjk
    rw [cronSearch] at h
    by_cases hm : cronMatches c m = true
    · rw [if_pos hm] at h
      cases h
      omega
    · rw [if_neg hm] at h
      rcases Nat.eq_or_lt_of_le hmj with rfl | hlt
      · simpa using hm
      · exact ih (m + 1) k h j hlt hjk

/-! ### Claims -/

/-- C1: every one of the eleven tools in the `tools` export has an
auto-executor, the `executions` map of confirmation-required handlers is
empty, and dispatching any registered tool never creates a
`PendingConfirmation`; with valid arguments the tool executes
immediately. -/
theorem claim1_auto_tools_never_pending :
    (∀ t : ToolName, hasExecute t = true) ∧
    executions = [] ∧
    (∀ (t : ToolName) (v : Bool) (e : ExecOutcome),
      (dispatchTool t v e).pendingCreated = false) ∧
    (∀ (t : ToolName) (e : ExecOutcome),
      (dispatchTool t true e).result = gateDispatch e ∧
      (dispatchTool t true e).executorRan = true) := by
  refine ⟨fun t => by cases t <;> rfl, rfl, ?_, ?_⟩
  · intro t v e
    cases v
    · rfl
    · cases t <;> rfl
  · intro t e
    cases t <;> exact ⟨rfl, rfl⟩

/-- C2: a `no-schedule` submission is rejected: `scheduleTask` returns
the rejection message without ever invoking `agent.schedule`, so the
Scheduler never receives it. -/
theorem claim2_no_schedule_rejected (ctx : Option Unit) (now : Nat) (newId payload : String) :
    (runScheduleTask ctx now newId ScheduleWhen.noSchedule payload).schedulerCalled = false ∧
    (runScheduleTask ctx now newId ScheduleWhen.noSchedule payload).created = none ∧
    (runScheduleTask (some ()) now newId ScheduleWhen.noSchedule payload).outcome =
      ExecOutcome.returned "Not a valid schedule input" := by
  refine ⟨?_, ?_, rfl⟩ <;> cases ctx <;> rfl

/-- C3: a `delayed` submission with non-positive `delayInSeconds` fails
with `InvalidScheduleError`, no `ScheduledTask` is created, and
`scheduleTask` surfaces the failure as an error text. -/
theorem claim3_nonpositive_delay_rejected (ctx : Option Unit) (now : Nat)
    (newId payload : String) (d : Int) (h : d ≤ 0) :
    submit now newId (ScheduleWhen.delayed d) payload = Except.error "InvalidScheduleError" ∧
    (runScheduleTask ctx now newId (ScheduleWhen.delayed d) payload).created = none ∧
    (runScheduleTask (some ()) now newId (ScheduleWhen.delayed d) payload).outcome =
      ExecOutcome.returned "Error scheduling task: InvalidScheduleError" := by
  have hsubmit : submit now newId (ScheduleWhen.delayed d) payload =
      Except.error "InvalidScheduleError" := by
    simp [submit, h]
  refine ⟨hsubmit, ?_, ?_⟩
  · cases ctx
    · rfl
    · simp [runScheduleTask, hsubmit]
  · simp [runScheduleTask, hsubmit]

theorem claim3_witness :
    submit 0 "t1" (ScheduleWhen.delayed (-5)) "d" = Except.error "InvalidScheduleError" ∧
    (runScheduleTask none 0 "t1" (ScheduleWhen.delayed (-5)) "d").created = none ∧
    (runScheduleTask (some ()) 0 "t1" (ScheduleWhen.delayed (-5)) "d").outcome =
      ExecOutcome.returned "Error scheduling task: InvalidScheduleError" :=
  claim3_nonpositive_delay_rejected none 0 "t1" "d" (-5) (by decide)

/-- C4 counterexample: an accepted `delayed` submission creates a task
whose identifier is the fresh id, but the value `scheduleTask` returns
to the caller is the confirmation message of src/tools.ts line 412, not
that identifier. -/
theorem claim4_counterexample :
    (runScheduleTask (some ()) 0 "task-123" (ScheduleWhen.delayed 5) "p").created =
      some ⟨"task-123", "delayed", "p", 5, none⟩ ∧
    (runScheduleTask (some ()) 0 "task-123" (ScheduleWhen.delayed 5) "p").outcome =
      ExecOutcome.returned "Task scheduled for type \"delayed\" : 5" ∧
    (runScheduleTask (some ()) 0 "task-123" (ScheduleWhen.delayed 5) "p").outcome ≠
      ExecOutcome.returned "task-123" := by
  decide

/-- C4 amended: for every accepted submission, the value returned to the
caller is the confirmation message naming the schedule type and input
(src/tools.ts line 412), while the created task carries the fresh
identifier. -/
theorem claim4_amended_returns_message (now : Nat) (newId payload : String)
    (w : ScheduleWhen) (task : ScheduledTask)
    (h : submit now newId w payload = Except.ok task) :
    (runScheduleTask (some ()) now newId w payload).outcome =
      ExecOutcome.returned ("Task scheduled for type \"" ++ whenTypeStr w ++ "\" : " ++
        scheduleInputStr w) ∧
    (runScheduleTask (some ()) now newId w payload).created = some task := by
  cases w with
  | noSchedule => simp [submit] at h
  | scheduled t => simp [runScheduleTask, h]
  | delayed d => simp [runScheduleTask, h]
  | cron c => simp [runScheduleTask, h]

theorem claim4_amended_witness :
    (runScheduleTask (some ()) 0 "t1" (ScheduleWhen.delayed 5) "p").outcome =
      ExecOutcome.returned ("Task scheduled for type \"" ++
        whenTypeStr (ScheduleWhen.delayed 5) ++ "\" : " ++
        scheduleInputStr (ScheduleWhen.delayed 5)) ∧
    (runScheduleTask (some ()) 0 "t1" (ScheduleWhen.delayed 5) "p").created =
      some ⟨"t1", "delayed", "p", 5, none⟩ :=
  claim4_amended_returns_message 0 "t1" "p" (ScheduleWhen.delayed 5)
    ⟨"t1", "delayed", "p", 5, none⟩ (by decide)

set_option maxRecDepth 10000 in
/-- C5: submitting `cron = "0 9 * * *"` at now = 2024-01-01T10:00:00Z
succeeds with next-fire = 2024-01-02T09:00:00Z, an instant strictly
after now, and no minute strictly between them matches the
expression. -/
theorem claim5_cron_next_fire :
    submit (epochOf 2024 1 1 10 0) "t1" (ScheduleWhen.cron "0 9 * * *") "p" =
      Except.ok ⟨"t1", "cron", "p", epochOf 2024 1 2 9 0, some "0 9 * * *"⟩ ∧
    epochOf 2024 1 1 10 0 < epochOf 2024 1 2 9 0 ∧
    parseCron "0 9 * * *" =
      some ⟨CronField.exact 0, CronField.exact 9, CronField.any, CronField.any, CronField.any⟩ ∧
    (∀ j : Nat,
      cronMatches ⟨CronField.exact 0, CronField.exact 9, CronField.any, CronField.any, CronField.any⟩
          j = true →
      j * 60 ≤ epochOf 2024 1 1 10 0 ∨ epochOf 2024 1 2 9 0 ≤ j * 60) := by
  refine ⟨by decide, by decide, by decide, ?_⟩
  intro j hj
  have hsearch : cronSearch
      ⟨CronField.exact 0, CronField.exact 9, CronField.any, CronField.any, CronField.any⟩
      1051200 (epochOf 2024 1 1 10 0 / 60 + 1) = some (epochOf 2024 1 2 9 0 / 60) := by
    decide
  have e1 : epochOf 2024 1 1 10 0 = 1704103200 := by decide
  have e2 : epochOf 2024 1 2 9 0 = 1704186000 := by decide
  rw [e1, e2]
  by_cases h1 : j * 60 ≤ 1704103200
  · exact Or.inl h1
  · refine Or.inr ?_
    have hlo : 1704103200 / 60 + 1 ≤ j := by omega
    by_cases h2 : j < 1704186000 / 60
    · have := cronSearch_min _ _ _ _ (by rw [e1, e2] at hsearch; exact hsearch) j hlo h2
      rw [hj] at this
      cases this
    · omega

/-- C6: each tool body that reads the current-agent execution context
(`scheduleTask`, `searchDocs`, `generateImage`, `callDoWorker`,
`callgraphqlWorker`) fails when no context binding exists — throwing or
returning the no-agent error text — and performs no external call. -/
theorem claim6_no_context_fails (now : Nat) (newId payload : String) (w : ScheduleWhen)
    (ai : CallResult (Option String)) (prompt : String)
    (ai2 : CallResult (Option String)) (r2 : CallResult Unit) (fn : String)
    (f1 : CallResult (Nat × String)) (f2 : CallResult String) :
    runScheduleTask none now newId w payload =
      ⟨ExecOutcome.thrown "No agent found", false, none⟩ ∧
    runSearchDocs none ai =
      (ExecOutcome.returned "Failed to search Cloudflare documentation. Error: Error: No agent found", false) ∧
    runGenerateImage none prompt ai2 r2 fn =
      (ExecOutcome.returned "Failed to generate image. Error: Error: No agent found", false) ∧
    runCallDoWorker none f1 =
      (ExecOutcome.returned "Failed to call worker. Error: Error: No agent found", false) ∧
    runCallgraphqlWorker none f2 =
      (ExecOutcome.returned "Failed to call GraphQL worker. Error: Error: No agent found", false) :=
  ⟨rfl, rfl, rfl, rfl, rfl⟩

/-- C7: every tool invocation, routed through the gate, yields either an
executed result or a structured error text — never an escaping raw
exception — and every executor except `scheduleTask` (whose context
check sits outside its `try`) returns text on every path by itself. -/
theorem claim7_failures_are_textual (inv : ToolInvocation) :
    (∃ t, gateDispatch (runInvocation inv) = DispatchResult.executed t ∨
      gateDispatch (runInvocation inv) = DispatchResult.errorResult t) ∧
    (isScheduleInv inv = false → ∃ t, runInvocation inv = ExecOutcome.returned t) := by
  constructor
  · cases h : runInvocation inv with
    | returned t => exact ⟨t, Or.inl (by simp [gateDispatch, h])⟩
    | thrown m => exact ⟨"ExecutionError: " ++ m, Or.inr (by simp [gateDispatch, h])⟩
  · intro hn
    cases inv with
    | scheduleTaskInv ctx now newId w payload => simp [isScheduleInv] at hn
    | sendWebhookInv f =>
      rcases f with m | ⟨ok, st, b⟩
      · exact ⟨_, rfl⟩
      · cases ok
        · exact ⟨_, rfl⟩
        · exact ⟨_, rfl⟩
    | searchDocsInv ctx ai =>
      cases ctx with
      | none => exact ⟨_, rfl⟩
      | some u =>
        rcases ai with m | r
        · exact ⟨_, rfl⟩
        · cases r
          · exact ⟨_, rfl⟩
          · exact ⟨_, rfl⟩
    | generateImageInv ctx prompt ai r2 fn =>
      cases ctx with
      | none => exact ⟨_, rfl⟩
      | some u =>
        rcases ai with m | r
        · exact ⟨_, rfl⟩
        · cases r with
          | none => exact ⟨_, rfl⟩
          | some img =>
            rcases r2 with m2 | v
            · exact ⟨_, rfl⟩
            · exact ⟨_, rfl⟩
    | callDoWorkerInv ctx f =>
      cases ctx with
      | none => exact ⟨_, rfl⟩
      | some u =>
        rcases f with m | ⟨st, txt⟩
        · exact ⟨_, rfl⟩
        · exact ⟨_, rfl⟩
    | callgraphqlWorkerInv ctx f =>
      cases ctx with
      | none => exact ⟨_, rfl⟩
      | some u =>
        rcases f with m | json
        · exact ⟨_, rfl⟩
        · exact ⟨_, rfl⟩

theorem claim7_witness :
    ∃ t, runInvocation (ToolInvocation.sendWebhookInv (CallResult.failure "boom")) =
      ExecOutcome.returned t :=
  (claim7_failures_are_textual (ToolInvocation.sendWebhookInv (CallResult.failure "boom"))).2 rfl

/-- C8: `generateImage` arguments that violate the input schema (empty
or over-long prompt, or steps outside 1..8) make dispatch fail with
`ValidationError`; the executor is never run. -/
theorem claim8_invalid_args_rejected (prompt : String) (steps : Option ℚ) (e : ExecOutcome)
    (h : prompt.length = 0 ∨ 2048 < prompt.length ∨
      ∃ s, steps = some s ∧ (s < 1 ∨ 8 < s)) :
    dispatchTool ToolName.generateImage (generateImageArgsValid prompt steps) e =
      ⟨DispatchResult.errorResult "ValidationError", false, false⟩ := by
  have hv : generateImageArgsValid prompt steps = false := by
    rcases h with h | h | ⟨s, hs, hlt⟩
    · simp [generateImageArgsValid, h]
    · have hle : ¬ (prompt.length ≤ 2048) := by omega
      simp [generateImageArgsValid, hle]
    · subst hs
      rcases hlt with h | h
      · have : ¬ (1 ≤ s) := not_le.mpr h
        simp [generateImageArgsValid, this]
      · have : ¬ (s ≤ 8) := not_le.mpr h
        simp [generateImageArgsValid, this]
  rw [hv]
  rfl

theorem claim8_witness :
    dispatchTool ToolName.generateImage (generateImageArgsValid "" none)
      (ExecOutcome.returned "img") =
      ⟨DispatchResult.errorResult "ValidationError", false, false⟩ :=
  claim8_invalid_args_rejected "" none (ExecOutcome.returned "img") (Or.inl (by decide))

/-- C9: the expression wrapping of `addCloudflareCustomRule`: a not yet
parenthesized (after trimming) expression is replaced by the trimmed
expression in parentheses, an already-parenthesized one is left
unchanged, and the wrapping step is idempotent. -/
theorem claim9_wrapping_idempotent (e : JsStr) :
    (wrapCond e = true → wrapExpression e = e) ∧
    (wrapCond e = false → wrapExpression e = '(' :: (jsTrim e ++ [')'])) ∧
    wrapExpression (wrapExpression e) = wrapExpression e := by
  have hpos : wrapCond e = true → wrapExpression e = e := by
    intro h
    rw [wrapCond] at h
    simp [wrapExpression, h]
  have hneg : wrapCond e = false → wrapExpression e = '(' :: (jsTrim e ++ [')']) := by
    intro h
    rw [wrapCond] at h
    simp [wrapExpression, h]
  refine ⟨hpos, hneg, ?_⟩
  cases hc : wrapCond e with
  | true => rw [hpos hc]; exact hpos hc
  | false =>
    rw [hneg hc]
    have ht := jsTrim_paren (jsTrim e)
    have hs : jsStartsWith (jsTrim ('(' :: (jsTrim e ++ [')']))) '(' = true := by
      rw [ht]; rfl
    have he : jsEndsWith (jsTrim ('(' :: (jsTrim e ++ [')']))) ')' = true := by
      rw [ht]; exact jsEndsWith_paren (jsTrim e)
    simp [wrapExpression, hs, he]

theorem claim9_witness :
    wrapExpression (' ' :: 'a' :: ' ' :: []) = '(' :: ('a' :: []) ++ [')'] ∧
    wrapExpression ('(' :: 'a' :: ')' :: []) = '(' :: 'a' :: ')' :: [] := by
  constructor
  · have h := (claim9_wrapping_idempotent (' ' :: 'a' :: ' ' :: [])).2.1 (by decide)
    simpa using h
  · exact (claim9_wrapping_idempotent ('(' :: 'a' :: ')' :: [])).1 (by decide)

/-- C10: the calculator worker's `div` branch: with `b = 0` it answers
400 `"Cannot divide by zero"` and never divides; the division `a / b` is
performed only when `b` is nonzero, and a `b` of zero (or an unparsable
`b`) never triggers a division anywhere in the worker. -/
theorem claim10_div_by_zero_guard (a b : ℚ) (p : String) (op : Option String) (x : Option ℚ) :
    calcFetch "/calc" (some "div") (some a) (some b) =
      (if b = 0 then ⟨⟨400, "Cannot divide by zero"⟩, false⟩
       else ⟨⟨200, jsonResult (a / b)⟩, true⟩) ∧
    (calcFetch p op x (some 0)).divisionPerformed = false ∧
    (calcFetch p op x none).divisionPerformed = false := by
  refine ⟨?_, ?_, ?_⟩
  · simp [calcFetch]
  · rcases x with _ | xa
    · unfold calcFetch
      split <;> rfl
    · unfold calcFetch
      split
      · rfl
      · split
        · rfl
        · rfl
        · rename_i ha hb
          injection hb with hb
          subst hb
          split
          all_goals rfl
  · rcases x with _ | xa <;> (unfold calcFetch; split <;> rfl)

end AgentsWrapper
